import Mathlib

/-!
Shallow embedding of the two lunar-lander variants in this repository:

* `O3` embeds the physics, spawning, collision classification and reset
  branch of the pad-and-randomized-spawn variant (Rocket class, spawn_rocket,
  and the per-frame collision / bounds / reset logic of its main loop).
* `Sim` embeds the fuel-bearing variant (module-level rocket state, the
  key-handling step, and the gravity / translation / ground-classification
  step of its main loop).

Real-valued fields are modelled as `ℝ`; `math.sin` / `math.cos` /
`math.sqrt` / `math.radians` become `Real.sin` / `Real.cos` / `Real.sqrt`
and an explicit degree-to-radian conversion.  Random draws
(`random.choice`, `random.uniform`) are modelled as explicit parameters
constrained by the ranges the source passes to them.
-/

open Filter

noncomputable section

/-- Snapshot of the held keys sampled once per frame (`pygame.key.get_pressed`). -/
structure Keys where
  left : Bool
  right : Bool
  up : Bool
  space : Bool

/-- No key held. -/
def noKeys : Keys := ⟨false, false, false, false⟩

/-- Degree-to-radian conversion, `math.radians(d) = d * pi / 180`. -/
noncomputable def radians (d : ℝ) : ℝ := d * Real.pi / 180

namespace O3

/-- Window width. -/
def WIDTH : ℝ := 800

/-- Window height. -/
def HEIGHT : ℝ := 600

/-- Constant downward acceleration per frame. -/
def GRAVITY : ℝ := 0.05

/-- Acceleration added while the thruster is active. -/
def THRUST : ℝ := 0.15

/-- Acceleration applied to rotational velocity when turning. -/
def ROTATIONAL_ACCELERATION : ℝ := 0.2

/-- Damping factor applied to rotational velocity every frame. -/
def ROTATIONAL_DAMPING : ℝ := 0.99

/-- Maximum rotational velocity allowed for a safe landing. -/
def SAFE_ROTATIONAL_SPEED : ℝ := 2.0

/-- Maximum vertical speed allowed for a safe landing. -/
def SAFE_VERTICAL_SPEED : ℝ := 2.5

/-- Maximum horizontal speed allowed for a safe landing. -/
def SAFE_HORIZONTAL_SPEED : ℝ := 2.0

/-- Maximum angle (degrees from vertical) allowed for a safe landing. -/
def SAFE_ANGLE : ℝ := 15

/-- Height of the ground strip. -/
def GROUND_HEIGHT : ℝ := 30

/-- Width of the landing pad. -/
def LANDING_PAD_WIDTH : ℝ := 100

/-- Left edge of the landing pad, `(WIDTH - LANDING_PAD_WIDTH) / 2`. -/
def landing_pad_x : ℝ := (WIDTH - LANDING_PAD_WIDTH) / 2

/-- Top of the ground, `HEIGHT - GROUND_HEIGHT`. -/
def landing_pad_y : ℝ := HEIGHT - GROUND_HEIGHT

/-- The Rocket class: position, velocity, orientation, rotational velocity
and the two status flags. -/
structure Rocket where
  x : ℝ
  y : ℝ
  vx : ℝ
  vy : ℝ
  angle : ℝ
  rotational_velocity : ℝ
  alive : Bool
  landed : Bool

/-- `Rocket.update`: one integrator step.  Returns the state unchanged when
the rocket is not alive; otherwise applies rotational control and damping,
thrust along the (just rotated) nose direction while the up key is held,
gravity, and the translation by the new velocity. -/
noncomputable def update (keys : Keys) (r : Rocket) : Rocket :=
  if r.alive then
    let rv1 := if keys.left then r.rotational_velocity - ROTATIONAL_ACCELERATION
               else r.rotational_velocity
    let rv2 := if keys.right then rv1 + ROTATIONAL_ACCELERATION else rv1
    let angle := r.angle + rv2
    let rv3 := rv2 * ROTATIONAL_DAMPING
    let vx := if keys.up then r.vx + Real.sin (radians angle) * THRUST else r.vx
    let vy0 := if keys.up then r.vy - Real.cos (radians angle) * THRUST else r.vy
    let vy := vy0 + GRAVITY
    { x := r.x + vx, y := r.y + vy, vx := vx, vy := vy, angle := angle,
      rotational_velocity := rv3, alive := r.alive, landed := r.landed }
  else r

/-- `spawn_rocket`, with the random draws made explicit: `side` is the
result of `random.choice([0, 1, 2])`, `coord` the uniform edge coordinate,
`speed` the uniform speed draw in `[1, 3]`.  The rocket spawns on the chosen
edge pointing straight up and aimed at the pad center. -/
noncomputable def spawn_rocket (side : Fin 3) (coord : ℝ) (speed : ℝ) : Rocket :=
  let x : ℝ := if side = 0 then 0 else if side = 1 then WIDTH else coord
  let y : ℝ := if side = 0 ∨ side = 1 then coord else 0
  let target_x := WIDTH / 2
  let target_y := landing_pad_y
  let dx := target_x - x
  let dy := target_y - y
  let distance0 := Real.sqrt (dx ^ 2 + dy ^ 2)
  let distance := if distance0 = 0 then 1 else distance0
  { x := x, y := y, vx := dx / distance * speed, vy := dy / distance * speed,
    angle := 0, rotational_velocity := 0, alive := true, landed := false }

/-- The loop state around the rocket: the game-over flag and the
end-of-game message. -/
structure GameState where
  rocket : Rocket
  game_over : Bool
  message : String

/-- The reset branch of the main loop: while game over and SPACE held,
replace the rocket by a freshly spawned one (passed in as `newRocket`) and
clear the flag and message. -/
def resetBranch (keys : Keys) (newRocket : Rocket) (g : GameState) : GameState :=
  if g.game_over ∧ keys.space then ⟨newRocket, false, ""⟩ else g

/-- The physics branch of the main loop: update the rocket while the game
is not over. -/
noncomputable def updateBranch (keys : Keys) (g : GameState) : GameState :=
  if g.game_over then g else { g with rocket := update keys g.rocket }

/-- Ground-contact classification: on contact (`y ≥ landing_pad_y - 10`
while alive), a contact outside the pad span is a crash; inside the pad the
four safety thresholds decide between landing and crashing. -/
def collisionCheck (g : GameState) : GameState :=
  let r := g.rocket
  if r.alive ∧ r.y ≥ landing_pad_y - 10 then
    if landing_pad_x ≤ r.x ∧ r.x ≤ landing_pad_x + LANDING_PAD_WIDTH then
      if |r.vy| ≤ SAFE_VERTICAL_SPEED ∧ |r.vx| ≤ SAFE_HORIZONTAL_SPEED ∧
          |r.angle| ≤ SAFE_ANGLE ∧ |r.rotational_velocity| ≤ SAFE_ROTATIONAL_SPEED then
        ⟨{ r with landed := true, alive := false }, true,
          "Landed Successfully! Press SPACE to reset."⟩
      else
        ⟨{ r with alive := false }, true, "Crashed! Press SPACE to reset."⟩
    else
      ⟨{ r with alive := false }, true, "Crashed! Press SPACE to reset."⟩
  else g

/-- Off-screen check: an alive rocket more than 50 px beyond any window
edge crashes out of bounds. -/
def boundsCheck (g : GameState) : GameState :=
  let r := g.rocket
  if r.alive ∧ (r.x < -50 ∨ r.x > WIDTH + 50 ∨ r.y < -50 ∨ r.y > HEIGHT + 50) then
    ⟨{ r with alive := false }, true, "Crashed! (Out of bounds) Press SPACE to reset."⟩
  else g

/-- One iteration of the main loop (rendering elided): reset branch, then
the physics update while not game over, then the collision and bounds
checks. -/
noncomputable def tick (keys : Keys) (newRocket : Rocket) (g : GameState) : GameState :=
  boundsCheck (collisionCheck (updateBranch keys (resetBranch keys newRocket g)))

end O3

namespace Sim

/-- Window width. -/
def WIDTH : ℝ := 800

/-- Window height. -/
def HEIGHT : ℝ := 600

/-- Rocket size used by the ground-contact test. -/
def ROCKET_SIZE : ℝ := 20

/-- Height of the ground strip. -/
def GROUND_HEIGHT : ℝ := 50

/-- Constant downward acceleration per frame. -/
def GRAVITY : ℝ := 0.03

/-- Combined speed threshold for a successful landing. -/
def SPEED_THRESHOLD : ℝ := 2

/-- Absolute angle threshold for a successful landing. -/
def ANGLE_THRESHOLD : ℝ := 10

/-- Fuel consumed per tick of active thrust. -/
def fuel_rate : ℝ := 0.5

/-- The module-level rocket state of the fuel-bearing variant.
`landing_status` mirrors the Python variable: `none` while in progress,
otherwise one of the strings "crashed (speed)", "crashed (angle)",
"landed!". -/
structure SimState where
  rocket_x : ℝ
  rocket_y : ℝ
  rocket_angle : ℝ
  rocket_velocity_x : ℝ
  rocket_velocity_y : ℝ
  angular_velocity : ℝ
  fuel : ℝ
  landing_status : Option String

/-- The state built at program start and by the reset branch: top-left
corner, zero velocity, angle 0, full fuel, in progress. -/
def resetState : SimState :=
  { rocket_x := 0, rocket_y := 0, rocket_angle := 0, rocket_velocity_x := 0,
    rocket_velocity_y := 0, angular_velocity := 0, fuel := 100,
    landing_status := none }

/-- The event-handling step of the main loop: a SPACE / RETURN keydown
reassigns every rocket variable to its initial value, with no condition on
the current landing status. -/
def eventStep (spaceDown : Bool) (s : SimState) : SimState :=
  if spaceDown then resetState else s

/-- The key-handling step of the main loop, run every frame regardless of
landing status: left/right mutate the angle directly, and while the up key
is held with fuel left, thrust mutates the velocity along the nose
direction and burns fuel. -/
noncomputable def keyStep (keys : Keys) (s : SimState) : SimState :=
  let angle1 := if keys.left then s.rocket_angle + 1 else s.rocket_angle
  let angle2 := if keys.right then angle1 - 1 else angle1
  if keys.up ∧ s.fuel > 0 then
    { s with
      rocket_angle := angle2
      rocket_velocity_y := s.rocket_velocity_y - 0.1 * Real.cos (radians angle2)
      rocket_velocity_x := s.rocket_velocity_x - 0.1 * Real.sin (radians angle2)
      fuel := s.fuel - fuel_rate }
  else
    { s with rocket_angle := angle2 }

/-- The physics-and-classification step, run only while
`landing_status = none`: gravity, translation, angle drift by the (always
zero) angular velocity, then the ground-contact test with combined-speed
and angle thresholds. -/
noncomputable def physStep (s : SimState) : SimState :=
  if s.landing_status = none then
    let vy := s.rocket_velocity_y + GRAVITY
    let x := s.rocket_x + s.rocket_velocity_x
    let y := s.rocket_y + vy
    let angle := s.rocket_angle + s.angular_velocity
    let status : Option String :=
      if y + ROCKET_SIZE ≥ HEIGHT - GROUND_HEIGHT then
        if Real.sqrt (vy * vy + s.rocket_velocity_x * s.rocket_velocity_x) >
            SPEED_THRESHOLD then some "crashed (speed)"
        else if |angle| > ANGLE_THRESHOLD then some "crashed (angle)"
        else some "landed!"
      else none
    { s with
      rocket_velocity_y := vy
      rocket_x := x
      rocket_y := y
      rocket_angle := angle
      landing_status := status }
  else s

/-- One iteration of the main loop (rendering elided): event handling
(`spaceDown` is a SPACE / RETURN keydown this frame), the unconditional
key-handling step, then the status-gated physics step. -/
noncomputable def simTick (keys : Keys) (spaceDown : Bool) (s : SimState) : SimState :=
  physStep (keyStep keys (eventStep spaceDown s))

/-- The states the loop can reach from program start. -/
inductive Reachable : SimState → Prop
  | init : Reachable resetState
  | step (keys : Keys) (spaceDown : Bool) (s : SimState) :
      Reachable s → Reachable (simTick keys spaceDown s)

end Sim

/-! ## Helper lemmas -/

/-- The key-handling step of the fuel variant never touches position,
angular velocity, or the landing status. -/
theorem Sim.keyStep_keeps (keys : Keys) (s : Sim.SimState) :
    (Sim.keyStep keys s).rocket_x = s.rocket_x ∧
    (Sim.keyStep keys s).rocket_y = s.rocket_y ∧
    (Sim.keyStep keys s).angular_velocity = s.angular_velocity ∧
    (Sim.keyStep keys s).landing_status = s.landing_status := by
  by_cases h : keys.up ∧ s.fuel > 0 <;> simp [Sim.keyStep, h]

/-- The physics step of the fuel variant is skipped entirely once the
landing status is set. -/
theorem Sim.physStep_not_flying {s : Sim.SimState} (h : s.landing_status ≠ none) :
    Sim.physStep s = s := by
  simp [Sim.physStep, h]

/-- The physics step of the fuel variant never touches the fuel. -/
theorem Sim.physStep_fuel (s : Sim.SimState) : (Sim.physStep s).fuel = s.fuel := by
  by_cases h : s.landing_status = none <;> simp [Sim.physStep, h]

/-! ## C1 — terminal stickiness -/

/-- C1 counterexample: in the fuel-bearing variant a tick on a state whose
landing status is already set ("crashed (speed)") with the left key held
still mutates the angle (0 degrees becomes 1 degree), so the integrator
tick does not leave every field unchanged once status is terminal. -/
theorem C1_cex :
    ((⟨0, 0, 0, 0, 0, 0, 100, some "crashed (speed)"⟩ :
        Sim.SimState).landing_status ≠ none) ∧
    (Sim.simTick ⟨true, false, false, false⟩ false
      ⟨0, 0, 0, 0, 0, 0, 100, some "crashed (speed)"⟩).rocket_angle = 1 ∧
    (1 : ℝ) ≠ (0 : ℝ) := by
  refine ⟨by simp, ?_, by norm_num⟩
  simp [Sim.simTick, Sim.eventStep, Sim.keyStep, Sim.physStep]

/-- C1 (amended): once status is terminal, the pad variant's integrator
leaves the whole state unchanged under any key state; in the fuel-bearing
variant a reset-free tick leaves position and status unchanged (gravity,
translation and classification are gated on the status), but held keys can
still mutate angle, velocity and fuel, as the counterexample shows. -/
theorem C1_terminal_stickiness_amended :
    (∀ (keys : Keys) (r : O3.Rocket), r.alive = false → O3.update keys r = r) ∧
    (∀ (keys : Keys) (s : Sim.SimState), s.landing_status ≠ none →
      (Sim.simTick keys false s).rocket_x = s.rocket_x ∧
      (Sim.simTick keys false s).rocket_y = s.rocket_y ∧
      (Sim.simTick keys false s).landing_status = s.landing_status) := by
  constructor
  · intro keys r h
    simp [O3.update, h]
  · intro keys s h
    have hk := Sim.keyStep_keeps keys s
    have hng : (Sim.keyStep keys s).landing_status ≠ none := by
      rw [hk.2.2.2]; exact h
    have hp := Sim.physStep_not_flying hng
    simp [Sim.simTick, Sim.eventStep, hp, hk.1, hk.2.1, hk.2.2.2]

/-- C1 witness: the amended statement applied to a dead pad-variant rocket
and to a crashed fuel-variant state. -/
theorem C1_witness :
    O3.update noKeys ⟨0, 0, 0, 0, 0, 5, false, false⟩ =
      (⟨0, 0, 0, 0, 0, 5, false, false⟩ : O3.Rocket) ∧
    (Sim.simTick noKeys false ⟨1, 2, 3, 0, 0, 0, 100, some "landed!"⟩).rocket_x = 1 := by
  constructor
  · exact C1_terminal_stickiness_amended.1 noKeys _ rfl
  · exact (C1_terminal_stickiness_amended.2 noKeys
      ⟨1, 2, 3, 0, 0, 0, 100, some "landed!"⟩ (by simp)).1

/-! ## C2 — thrust update -/

/-- C2 counterexample: in the fuel-bearing variant, thrust at angle 90
degrees subtracts 0.1 · sin(90°) from the horizontal velocity (giving
−0.1), while the claimed formula `velocity.x += thrust · sin(angle)` would
give +0.1. -/
theorem C2_cex :
    (Sim.keyStep ⟨false, false, true, false⟩
      ⟨0, 0, 90, 0, 0, 0, 100, none⟩).rocket_velocity_x = -0.1 ∧
    (0 : ℝ) + 0.1 * Real.sin (radians 90) = 0.1 ∧
    (-0.1 : ℝ) ≠ (0.1 : ℝ) := by
  have hrad : radians 90 = Real.pi / 2 := by unfold radians; ring
  have hsin : Real.sin (radians 90) = 1 := by rw [hrad, Real.sin_pi_div_two]
  refine ⟨?_, by rw [hsin]; norm_num, by norm_num⟩
  simp [Sim.keyStep, hsin]

/-- C2 (amended): while up is held on a live rocket, the pad variant adds
exactly `THRUST · (sin angle, −cos angle)` (angle in radians, taken after
the tick's rotation) to the velocity, so at angle 0 thrust is straight up;
the fuel-bearing variant instead adds `0.1 · (−sin angle, −cos angle)`
(matching its opposite rotation-sign convention) and burns `fuel_rate`
fuel on that tick. -/
theorem C2_thrust_amended :
    (∀ (keys : Keys) (r : O3.Rocket), r.alive = true → keys.up = true →
      (O3.update keys r).vx =
        r.vx + Real.sin (radians (O3.update keys r).angle) * O3.THRUST ∧
      (O3.update keys r).vy =
        r.vy - Real.cos (radians (O3.update keys r).angle) * O3.THRUST +
          O3.GRAVITY) ∧
    (∀ (keys : Keys) (s : Sim.SimState), keys.up = true → keys.left = false →
      keys.right = false → s.fuel > 0 →
      (Sim.keyStep keys s).rocket_velocity_x =
        s.rocket_velocity_x - 0.1 * Real.sin (radians s.rocket_angle) ∧
      (Sim.keyStep keys s).rocket_velocity_y =
        s.rocket_velocity_y - 0.1 * Real.cos (radians s.rocket_angle) ∧
      (Sim.keyStep keys s).fuel = s.fuel - Sim.fuel_rate) := by
  constructor
  · intro keys r halive hup
    simp [O3.update, halive, hup]
  · intro keys s hup hleft hright hfuel
    simp [Sim.keyStep, hup, hleft, hright, hfuel]

/-- C2 witness: the amended statement applied at angle 0 with the up key
held, in both variants. -/
theorem C2_witness :
    ((O3.update ⟨false, false, true, false⟩ ⟨0, 0, 0, 0, 0, 0, true, false⟩).vx =
      (0 : ℝ) + Real.sin (radians (O3.update ⟨false, false, true, false⟩
        ⟨0, 0, 0, 0, 0, 0, true, false⟩).angle) * O3.THRUST ∧
     (O3.update ⟨false, false, true, false⟩ ⟨0, 0, 0, 0, 0, 0, true, false⟩).vy =
      (0 : ℝ) - Real.cos (radians (O3.update ⟨false, false, true, false⟩
        ⟨0, 0, 0, 0, 0, 0, true, false⟩).angle) * O3.THRUST + O3.GRAVITY) ∧
    ((Sim.keyStep ⟨false, false, true, false⟩
        ⟨0, 0, 0, 0, 0, 0, 100, none⟩).rocket_velocity_x =
      (0 : ℝ) - 0.1 * Real.sin (radians 0) ∧
     (Sim.keyStep ⟨false, false, true, false⟩
        ⟨0, 0, 0, 0, 0, 0, 100, none⟩).rocket_velocity_y =
      (0 : ℝ) - 0.1 * Real.cos (radians 0) ∧
     (Sim.keyStep ⟨false, false, true, false⟩
        ⟨0, 0, 0, 0, 0, 0, 100, none⟩).fuel = (100 : ℝ) - Sim.fuel_rate) :=
  ⟨C2_thrust_amended.1 ⟨false, false, true, false⟩ _ rfl rfl,
   C2_thrust_amended.2 ⟨false, false, true, false⟩ _ rfl rfl rfl (by norm_num)⟩

/-! ## C3 — gravity accumulation -/

/-- C3: with no thrust, each integrator tick adds exactly the gravity
constant to the vertical velocity before the translation (so the position
update already uses the new velocity), in both variants; and from rest, ten
no-input ticks of the pad variant (gravity 0.05) accumulate vertical
velocity 0.5 and increase y by exactly 0.05 + 0.10 + ... + 0.50 = 2.75. -/
theorem C3_gravity :
    (∀ (keys : Keys) (r : O3.Rocket), r.alive = true → keys.up = false →
      (O3.update keys r).vy = r.vy + O3.GRAVITY ∧
      (O3.update keys r).y = r.y + (r.vy + O3.GRAVITY)) ∧
    (∀ (keys : Keys) (s : Sim.SimState), s.landing_status = none →
      keys.up = false →
      (Sim.physStep (Sim.keyStep keys s)).rocket_velocity_y =
        s.rocket_velocity_y + Sim.GRAVITY ∧
      (Sim.physStep (Sim.keyStep keys s)).rocket_y =
        s.rocket_y + (s.rocket_velocity_y + Sim.GRAVITY)) ∧
    (((O3.update noKeys)^[10] ⟨400, 100, 0, 0, 0, 0, true, false⟩).vy = 0.5 ∧
     ((O3.update noKeys)^[10] ⟨400, 100, 0, 0, 0, 0, true, false⟩).y =
       100 + 2.75) := by
  refine ⟨?_, ?_, ?_⟩
  · intro keys r halive hup
    simp [O3.update, halive, hup]
  · intro keys s hst hup
    simp [Sim.keyStep, hup, Sim.physStep, hst]
  · norm_num [Function.iterate_succ_apply', O3.update, noKeys, O3.GRAVITY]

/-- C3 witness: the per-tick parts applied to a concrete live state with no
keys held, in both variants. -/
theorem C3_witness :
    ((O3.update noKeys ⟨10, 20, 1, 2, 3, 0, true, false⟩).vy = (2 : ℝ) + O3.GRAVITY ∧
     (O3.update noKeys ⟨10, 20, 1, 2, 3, 0, true, false⟩).y =
       (20 : ℝ) + ((2 : ℝ) + O3.GRAVITY)) ∧
    ((Sim.physStep (Sim.keyStep noKeys
        ⟨10, 20, 0, 1, 2, 0, 100, none⟩)).rocket_velocity_y = (2 : ℝ) + Sim.GRAVITY ∧
     (Sim.physStep (Sim.keyStep noKeys
        ⟨10, 20, 0, 1, 2, 0, 100, none⟩)).rocket_y =
       (20 : ℝ) + ((2 : ℝ) + Sim.GRAVITY)) :=
  ⟨C3_gravity.1 noKeys _ rfl rfl, C3_gravity.2.1 noKeys _ rfl rfl⟩

/-! ## C4 — pad-overlap precedence -/

/-- C4: in the pad variant, a ground contact whose horizontal position lies
outside the pad span is classified as a crash — alive is cleared, landed is
not set, the message is the crash message — regardless of the velocity,
angle and angular velocity at contact. -/
theorem C4_pad_overlap (r : O3.Rocket) (go : Bool) (msg : String)
    (halive : r.alive = true) (hy : r.y ≥ O3.landing_pad_y - 10)
    (hx : r.x < O3.landing_pad_x ∨ O3.landing_pad_x + O3.LANDING_PAD_WIDTH < r.x) :
    (O3.collisionCheck ⟨r, go, msg⟩).rocket.alive = false ∧
    (O3.collisionCheck ⟨r, go, msg⟩).rocket.landed = r.landed ∧
    (O3.collisionCheck ⟨r, go, msg⟩).message = "Crashed! Press SPACE to reset." ∧
    (O3.collisionCheck ⟨r, go, msg⟩).game_over = true := by
  have hpad : ¬(O3.landing_pad_x ≤ r.x ∧ r.x ≤ O3.landing_pad_x + O3.LANDING_PAD_WIDTH) := by
    rcases hx with h | h
    · exact fun hc => absurd hc.1 (not_le.mpr h)
    · exact fun hc => absurd hc.2 (not_le.mpr h)
  simp [O3.collisionCheck, halive, hy, hpad]

/-- C4 witness: a slow, level, upright contact at x = 0 (left of the pad)
still crashes. -/
theorem C4_witness :
    (O3.collisionCheck ⟨⟨0, 561, 0, 0, 0, 0, true, false⟩, false, ""⟩).rocket.alive =
      false ∧
    (O3.collisionCheck ⟨⟨0, 561, 0, 0, 0, 0, true, false⟩, false, ""⟩).rocket.landed =
      false ∧
    (O3.collisionCheck ⟨⟨0, 561, 0, 0, 0, 0, true, false⟩, false, ""⟩).message =
      "Crashed! Press SPACE to reset." ∧
    (O3.collisionCheck ⟨⟨0, 561, 0, 0, 0, 0, true, false⟩, false, ""⟩).game_over =
      true :=
  C4_pad_overlap ⟨0, 561, 0, 0, 0, 0, true, false⟩ false "" rfl
    (by norm_num [O3.landing_pad_y, O3.HEIGHT, O3.GROUND_HEIGHT])
    (Or.inl (by norm_num [O3.landing_pad_x, O3.WIDTH, O3.LANDING_PAD_WIDTH]))

/-! ## C5 — reset atomicity and initial values -/

/-- A velocity built by scaling the unit vector toward the target by
`speed` has magnitude exactly `speed`. -/
theorem spawn_speed_aux (dx dy s : ℝ) (hd : dx ^ 2 + dy ^ 2 ≠ 0) (hs : 0 ≤ s) :
    Real.sqrt ((dx / Real.sqrt (dx ^ 2 + dy ^ 2) * s) ^ 2 +
      (dy / Real.sqrt (dx ^ 2 + dy ^ 2) * s) ^ 2) = s := by
  have hnn : (0 : ℝ) ≤ dx ^ 2 + dy ^ 2 := by positivity
  have hpos : 0 < dx ^ 2 + dy ^ 2 := hnn.lt_of_ne (Ne.symm hd)
  have hroot : Real.sqrt (dx ^ 2 + dy ^ 2) ≠ 0 :=
    ne_of_gt (Real.sqrt_pos.mpr hpos)
  have h2 : Real.sqrt (dx ^ 2 + dy ^ 2) ^ 2 = dx ^ 2 + dy ^ 2 := Real.sq_sqrt hnn
  have key : (dx / Real.sqrt (dx ^ 2 + dy ^ 2) * s) ^ 2 +
      (dy / Real.sqrt (dx ^ 2 + dy ^ 2) * s) ^ 2 = s ^ 2 := by
    field_simp
    ring
  rw [key, Real.sqrt_sq hs]

/-- The velocity assigned by `spawn_rocket` from an arbitrary spawn point
has magnitude exactly the drawn speed, provided the spawn point is not the
pad center. -/
theorem spawn_core (x y speed : ℝ) (hs : 0 ≤ speed)
    (hd : (O3.WIDTH / 2 - x) ^ 2 + (O3.landing_pad_y - y) ^ 2 ≠ 0) :
    Real.sqrt
      (((O3.WIDTH / 2 - x) /
          (if Real.sqrt ((O3.WIDTH / 2 - x) ^ 2 + (O3.landing_pad_y - y) ^ 2) = 0
           then 1 else Real.sqrt ((O3.WIDTH / 2 - x) ^ 2 + (O3.landing_pad_y - y) ^ 2)) *
          speed) ^ 2 +
       ((O3.landing_pad_y - y) /
          (if Real.sqrt ((O3.WIDTH / 2 - x) ^ 2 + (O3.landing_pad_y - y) ^ 2) = 0
           then 1 else Real.sqrt ((O3.WIDTH / 2 - x) ^ 2 + (O3.landing_pad_y - y) ^ 2)) *
          speed) ^ 2) = speed := by
  have hnn : (0 : ℝ) ≤ (O3.WIDTH / 2 - x) ^ 2 + (O3.landing_pad_y - y) ^ 2 := by
    positivity
  have hsd : Real.sqrt ((O3.WIDTH / 2 - x) ^ 2 + (O3.landing_pad_y - y) ^ 2) ≠ 0 :=
    fun h0 => hd ((Real.sqrt_eq_zero hnn).mp h0)
  rw [if_neg hsd]
  exact spawn_speed_aux _ _ speed hd hs

/-- C5 counterexample: the fuel-bearing variant's reset respawns at the
top-left corner, x = 0, not at the horizontal center of the window
(top-center would be x = WIDTH / 2). -/
theorem C5_cex :
    (Sim.eventStep true ⟨123, 45, 6, 7, 8, 9, 10, some "landed!"⟩).rocket_x = 0 ∧
    (0 : ℝ) ≠ Sim.WIDTH / 2 := by
  refine ⟨rfl, ?_⟩
  norm_num [Sim.WIDTH]

/-- C5 (amended): a reset of the fuel-bearing variant rebuilds the whole
state at once — top-LEFT spawn (0, 0), zero velocity, angle 0, zero angular
velocity, fuel 100, status in progress — with no field carried over; the
pad variant's reset branch swaps in a freshly spawned rocket, which sits on
a window edge, points straight up with zero rotational velocity, is alive
and not landed, and has speed equal to the drawn speed in [1, 3]. -/
theorem C5_reset_amended :
    (∀ s : Sim.SimState, Sim.eventStep true s = Sim.resetState) ∧
    (Sim.resetState.rocket_x = 0 ∧ Sim.resetState.rocket_y = 0 ∧
     Sim.resetState.rocket_velocity_x = 0 ∧ Sim.resetState.rocket_velocity_y = 0 ∧
     Sim.resetState.rocket_angle = 0 ∧ Sim.resetState.angular_velocity = 0 ∧
     Sim.resetState.fuel = 100 ∧ Sim.resetState.landing_status = none) ∧
    (∀ (keys : Keys) (nr : O3.Rocket) (g : O3.GameState),
      g.game_over = true → keys.space = true →
      O3.resetBranch keys nr g = ⟨nr, false, ""⟩) ∧
    (∀ (side : Fin 3) (coord speed : ℝ), 1 ≤ speed → speed ≤ 3 →
      (O3.spawn_rocket side coord speed).angle = 0 ∧
      (O3.spawn_rocket side coord speed).rotational_velocity = 0 ∧
      (O3.spawn_rocket side coord speed).alive = true ∧
      (O3.spawn_rocket side coord speed).landed = false ∧
      ((O3.spawn_rocket side coord speed).x = 0 ∨
        (O3.spawn_rocket side coord speed).x = O3.WIDTH ∨
        (O3.spawn_rocket side coord speed).y = 0) ∧
      Real.sqrt ((O3.spawn_rocket side coord speed).vx ^ 2 +
        (O3.spawn_rocket side coord speed).vy ^ 2) = speed) := by
  refine ⟨fun s => rfl, by norm_num [Sim.resetState], ?_, ?_⟩
  · intro keys nr g hg hs
    simp [O3.resetBranch, hg, hs]
  · intro side coord speed h1 h3
    have hs0 : (0 : ℝ) ≤ speed := by linarith
    refine ⟨rfl, rfl, rfl, rfl, ?_, ?_⟩
    · fin_cases side
      · exact Or.inl (by norm_num [O3.spawn_rocket, Fin.ext_iff])
      · exact Or.inr (Or.inl (by norm_num [O3.spawn_rocket, Fin.ext_iff]))
      · exact Or.inr (Or.inr (by norm_num [O3.spawn_rocket, Fin.ext_iff]))
    · simp only [O3.spawn_rocket]
      refine spawn_core _ _ speed hs0 ?_
      fin_cases side
      · norm_num [Fin.ext_iff, O3.WIDTH, O3.landing_pad_y, O3.HEIGHT, O3.GROUND_HEIGHT]
        positivity
      · norm_num [Fin.ext_iff, O3.WIDTH, O3.landing_pad_y, O3.HEIGHT, O3.GROUND_HEIGHT]
        positivity
      · norm_num [Fin.ext_iff, O3.WIDTH, O3.landing_pad_y, O3.HEIGHT, O3.GROUND_HEIGHT]
        positivity

/-- C5 witness: the amended statement applied to a concrete crashed state
(fuel variant), a concrete game-over state with SPACE held (pad variant),
and a concrete top-edge spawn with speed 2. -/
theorem C5_witness :
    Sim.eventStep true ⟨1, 2, 3, 4, 5, 6, 7, some "landed!"⟩ = Sim.resetState ∧
    O3.resetBranch ⟨false, false, false, true⟩ ⟨5, 6, 0, 0, 0, 0, true, false⟩
      ⟨⟨1, 2, 3, 4, 5, 6, false, false⟩, true, "Crashed! Press SPACE to reset."⟩ =
      ⟨⟨5, 6, 0, 0, 0, 0, true, false⟩, false, ""⟩ ∧
    Real.sqrt ((O3.spawn_rocket 2 400 2).vx ^ 2 + (O3.spawn_rocket 2 400 2).vy ^ 2) =
      2 :=
  ⟨C5_reset_amended.1 _,
   C5_reset_amended.2.2.1 ⟨false, false, false, true⟩ _ _ rfl rfl,
   (C5_reset_amended.2.2.2 2 400 2 (by norm_num) (by norm_num)).2.2.2.2.2⟩

/-! ## C6 — reset precondition -/

/-- C6 counterexample: in the fuel-bearing variant a SPACE/RETURN keydown
takes effect even while the rocket is flying — a tick on a Flying state
with fuel 50 and the reset key pressed ends with fuel 100, so the state was
reinitialized mid-flight. -/
theorem C6_cex :
    ((⟨7, 0, 0, 0, 0, 0, 50, none⟩ : Sim.SimState).landing_status = none) ∧
    (Sim.simTick noKeys true ⟨7, 0, 0, 0, 0, 0, 50, none⟩).fuel = 100 ∧
    (50 : ℝ) ≠ (100 : ℝ) := by
  refine ⟨rfl, ?_, by norm_num⟩
  simp [Sim.simTick, Sim.eventStep, Sim.resetState, Sim.keyStep, Sim.physStep_fuel,
    noKeys]

/-- C6 (amended): the pad variant's reset branch is inert while the game is
not over (so a mid-flight SPACE never replaces the rocket there), but the
fuel-bearing variant's SPACE/RETURN keydown reinitializes the state
unconditionally, including mid-flight, as the counterexample shows. -/
theorem C6_reset_gating_amended :
    (∀ (keys : Keys) (nr : O3.Rocket) (g : O3.GameState), g.game_over = false →
      O3.resetBranch keys nr g = g) ∧
    (∀ s : Sim.SimState, Sim.eventStep true s = Sim.resetState) := by
  constructor
  · intro keys nr g hg
    simp [O3.resetBranch, hg]
  · intro s
    rfl

/-- C6 witness: the amended statement applied to a concrete in-flight pad
state with SPACE held and to a concrete fuel-variant state. -/
theorem C6_witness :
    O3.resetBranch ⟨false, false, false, true⟩ ⟨1, 1, 0, 0, 0, 0, true, false⟩
      ⟨⟨2, 3, 4, 5, 6, 7, true, false⟩, false, ""⟩ =
      ⟨⟨2, 3, 4, 5, 6, 7, true, false⟩, false, ""⟩ ∧
    Sim.eventStep true ⟨9, 9, 9, 9, 9, 9, 9, none⟩ = Sim.resetState :=
  ⟨C6_reset_gating_amended.1 ⟨false, false, false, true⟩ _ _ rfl,
   C6_reset_gating_amended.2 _⟩

/-! ## C7 — safe-landing example -/

/-- C7: a flying rocket one pixel above the ground line, inside the pad
span (also after drifting 0.5 px right during the tick), with vertical
speed 1.0, horizontal speed 0.5, angle 5 degrees and angular velocity 0, is
classified as Landed on the next tick. -/
theorem C7_safe_landing (x : ℝ) (nr : O3.Rocket)
    (h1 : O3.landing_pad_x ≤ x)
    (h2 : x + 0.5 ≤ O3.landing_pad_x + O3.LANDING_PAD_WIDTH) :
    (O3.tick noKeys nr
      ⟨⟨x, O3.landing_pad_y - 1, 0.5, 1, 5, 0, true, false⟩, false, ""⟩).rocket.landed
        = true ∧
    (O3.tick noKeys nr
      ⟨⟨x, O3.landing_pad_y - 1, 0.5, 1, 5, 0, true, false⟩, false, ""⟩).message =
        "Landed Successfully! Press SPACE to reset." := by
  simp only [O3.tick, O3.resetBranch, O3.updateBranch, O3.update, O3.collisionCheck,
    O3.boundsCheck, noKeys]
  norm_num [O3.landing_pad_x, O3.landing_pad_y, O3.LANDING_PAD_WIDTH, O3.WIDTH,
    O3.HEIGHT, O3.GROUND_HEIGHT, O3.GRAVITY, O3.ROTATIONAL_DAMPING,
    O3.SAFE_VERTICAL_SPEED, O3.SAFE_HORIZONTAL_SPEED, O3.SAFE_ANGLE,
    O3.SAFE_ROTATIONAL_SPEED] at h1 h2 ⊢
  have hc : (350 : ℝ) ≤ x + 1 / 2 := by linarith
  have ha : |(1 : ℝ) / 2| = 1 / 2 := abs_of_nonneg (by norm_num)
  have hb : |(21 : ℝ) / 20| = 21 / 20 := abs_of_nonneg (by norm_num)
  norm_num [hc, h2, ha, hb]

/-- C7 witness: the landing example at x = 400 (pad center). -/
theorem C7_witness :
    (O3.tick noKeys ⟨0, 0, 0, 0, 0, 0, true, false⟩
      ⟨⟨400, O3.landing_pad_y - 1, 0.5, 1, 5, 0, true, false⟩, false, ""⟩).rocket.landed
        = true ∧
    (O3.tick noKeys ⟨0, 0, 0, 0, 0, 0, true, false⟩
      ⟨⟨400, O3.landing_pad_y - 1, 0.5, 1, 5, 0, true, false⟩, false, ""⟩).message =
        "Landed Successfully! Press SPACE to reset." :=
  C7_safe_landing 400 ⟨0, 0, 0, 0, 0, 0, true, false⟩
    (by norm_num [O3.landing_pad_x, O3.WIDTH, O3.LANDING_PAD_WIDTH])
    (by norm_num [O3.landing_pad_x, O3.WIDTH, O3.LANDING_PAD_WIDTH])

/-! ## C8 — speed-crash example -/

/-- C8 counterexample: in the pad variant (the one with the 2.5
vertical-speed threshold), a pad contact at vertical speed 5.0 reports only
the generic crash message, whose character sequence does not contain the
word "speed", so the reported outcome does not name "speed" as the
reason. -/
theorem C8_cex :
    (O3.collisionCheck ⟨⟨400, 565, 0, 5, 0, 0, true, false⟩, false, ""⟩).message =
      "Crashed! Press SPACE to reset." ∧
    ¬ ("speed".data <:+: "Crashed! Press SPACE to reset.".data) := by
  have habs : |(5 : ℝ)| = 5 := abs_of_nonneg (by norm_num)
  refine ⟨?_, by decide⟩
  norm_num [O3.collisionCheck, O3.landing_pad_x, O3.landing_pad_y, O3.WIDTH,
    O3.HEIGHT, O3.GROUND_HEIGHT, O3.LANDING_PAD_WIDTH, O3.SAFE_VERTICAL_SPEED,
    habs]

/-- C8 (amended): a pad contact at vertical speed 5.0 (> 2.5) does yield a
crash in the pad variant — alive cleared, landed not set, game over — but
with the generic message; the "(speed)" reason exists only in the
fuel-bearing variant, whose combined speed threshold is 2 and whose ground
contact at speed 5 sets the status string "crashed (speed)". -/
theorem C8_speed_crash_amended :
    ((O3.collisionCheck ⟨⟨400, 565, 0, 5, 0, 0, true, false⟩, false, ""⟩).rocket.alive
        = false ∧
     (O3.collisionCheck ⟨⟨400, 565, 0, 5, 0, 0, true, false⟩, false, ""⟩).rocket.landed
        = false ∧
     (O3.collisionCheck ⟨⟨400, 565, 0, 5, 0, 0, true, false⟩, false, ""⟩).game_over
        = true ∧
     (O3.collisionCheck ⟨⟨400, 565, 0, 5, 0, 0, true, false⟩, false, ""⟩).message =
        "Crashed! Press SPACE to reset.") ∧
    ((Sim.physStep ⟨0, 531, 0, 0, 4.97, 0, 100, none⟩).landing_status =
        some "crashed (speed)" ∧
     ("speed".data <:+: "crashed (speed)".data)) := by
  have habs : |(5 : ℝ)| = 5 := abs_of_nonneg (by norm_num)
  have hsq : Real.sqrt 25 = 5 := by
    rw [show (25 : ℝ) = 5 ^ 2 by norm_num]
    exact Real.sqrt_sq (by norm_num)
  constructor
  · refine ⟨?_, ?_, ?_, ?_⟩ <;>
      norm_num [O3.collisionCheck, O3.landing_pad_x, O3.landing_pad_y, O3.WIDTH,
        O3.HEIGHT, O3.GROUND_HEIGHT, O3.LANDING_PAD_WIDTH, O3.SAFE_VERTICAL_SPEED,
        habs]
  · refine ⟨?_, by decide⟩
    norm_num [Sim.physStep, Sim.GRAVITY, Sim.ROCKET_SIZE, Sim.HEIGHT,
      Sim.GROUND_HEIGHT, Sim.SPEED_THRESHOLD, hsq]

/-! ## C9 — fuel invariant -/

/-- Every reachable fuel level of the fuel-bearing variant is 100 minus a
half-integer with at most 200 halves consumed. -/
theorem Sim.fuel_shape {s : Sim.SimState} (h : Sim.Reachable s) :
    ∃ k : ℕ, k ≤ 200 ∧ s.fuel = 100 - (k : ℝ) / 2 := by
  induction h with
  | init => exact ⟨0, by norm_num, by norm_num [Sim.resetState]⟩
  | step keys sp s hs ih =>
    obtain ⟨k, hk, hfuel⟩ := ih
    have hev : ∃ k2 : ℕ, k2 ≤ 200 ∧
        (Sim.eventStep sp s).fuel = 100 - (k2 : ℝ) / 2 := by
      cases sp
      · exact ⟨k, hk, hfuel⟩
      · exact ⟨0, by norm_num, by norm_num [Sim.eventStep, Sim.resetState]⟩
    obtain ⟨k2, hk2, hf2⟩ := hev
    have hkey : ∃ k3 : ℕ, k3 ≤ 200 ∧
        (Sim.keyStep keys (Sim.eventStep sp s)).fuel = 100 - (k3 : ℝ) / 2 := by
      by_cases hc : keys.up ∧ (Sim.eventStep sp s).fuel > 0
      · refine ⟨k2 + 1, ?_, ?_⟩
        · have hpos := hc.2
          rw [hf2] at hpos
          have hlt : (k2 : ℝ) < 200 := by linarith
          have : k2 < 200 := by exact_mod_cast hlt
          omega
        · rw [show (Sim.keyStep keys (Sim.eventStep sp s)).fuel =
              (Sim.eventStep sp s).fuel - Sim.fuel_rate by simp [Sim.keyStep, hc],
            hf2, Sim.fuel_rate]
          push_cast
          ring
      · refine ⟨k2, hk2, ?_⟩
        rw [show (Sim.keyStep keys (Sim.eventStep sp s)).fuel =
            (Sim.eventStep sp s).fuel by simp [Sim.keyStep, hc], hf2]
    obtain ⟨k3, hk3, hf3⟩ := hkey
    refine ⟨k3, hk3, ?_⟩
    rw [Sim.simTick, Sim.physStep_fuel]
    exact hf3

/-- C9: in the fuel-bearing variant, fuel is nonnegative in every state
reachable from the initial full tank of 100 at 0.5 consumed per thrust
tick; and once fuel is exactly 0, holding the thrust key changes neither
the velocity components nor the fuel. -/
theorem C9_fuel_invariant :
    (∀ s : Sim.SimState, Sim.Reachable s → 0 ≤ s.fuel) ∧
    (∀ (keys : Keys) (s : Sim.SimState), s.fuel = 0 →
      (Sim.keyStep keys s).rocket_velocity_x = s.rocket_velocity_x ∧
      (Sim.keyStep keys s).rocket_velocity_y = s.rocket_velocity_y ∧
      (Sim.keyStep keys s).fuel = s.fuel) := by
  constructor
  · intro s h
    obtain ⟨k, hk, hf⟩ := Sim.fuel_shape h
    rw [hf]
    have : (k : ℝ) ≤ 200 := by exact_mod_cast hk
    linarith
  · intro keys s h
    have hc : ¬(keys.up ∧ s.fuel > 0) := by
      rintro ⟨-, hpos⟩
      rw [h] at hpos
      exact lt_irrefl 0 hpos
    simp [Sim.keyStep, hc]

/-- C9 witness: nonnegativity at the initial state, and a concrete
exhausted state on which held thrust is inert. -/
theorem C9_witness :
    (0 : ℝ) ≤ Sim.resetState.fuel ∧
    (Sim.keyStep ⟨false, false, true, false⟩ ⟨1, 2, 3, 4, 5, 6, 0, none⟩).fuel = 0 :=
  ⟨C9_fuel_invariant.1 _ Sim.Reachable.init,
   (C9_fuel_invariant.2 ⟨false, false, true, false⟩
     ⟨1, 2, 3, 4, 5, 6, 0, none⟩ rfl).2.2⟩

/-! ## C10 — rotational damping convergence -/

/-- One no-input update on a live rocket: still alive, rotational velocity
multiplied by the damping factor. -/
theorem O3.update_noKeys_step (r : O3.Rocket) (h : r.alive = true) :
    (O3.update noKeys r).alive = true ∧
    (O3.update noKeys r).rotational_velocity =
      r.rotational_velocity * O3.ROTATIONAL_DAMPING := by
  constructor <;> simp [O3.update, noKeys, h]

/-- Iterating the no-input update multiplies the rotational velocity by the
damping factor each tick and keeps the rocket alive. -/
theorem O3.update_iterate_rv (r : O3.Rocket) (h : r.alive = true) (n : ℕ) :
    ((O3.update noKeys)^[n] r).alive = true ∧
    ((O3.update noKeys)^[n] r).rotational_velocity =
      O3.ROTATIONAL_DAMPING ^ n * r.rotational_velocity := by
  induction n with
  | zero => simp [h]
  | succ n ih =>
    obtain ⟨hal, hrv⟩ := ih
    rw [Function.iterate_succ_apply']
    have hu := O3.update_noKeys_step _ hal
    refine ⟨hu.1, ?_⟩
    rw [hu.2, hrv]
    ring

/-- C10 counterexample: on a non-Flying (dead) rocket with angular velocity
5, the integrator tick leaves the angular velocity at 5, which is not the
claimed multiplication by the damping factor 0.99. -/
theorem C10_cex :
    (O3.update noKeys ⟨0, 0, 0, 0, 0, 5, false, false⟩).rotational_velocity = 5 ∧
    (5 : ℝ) ≠ O3.ROTATIONAL_DAMPING * 5 := by
  refine ⟨rfl, ?_⟩
  norm_num [O3.ROTATIONAL_DAMPING]

/-- C10 (amended): for every LIVE rocket, a tick with neither turn key held
multiplies the rotational velocity by the damping factor 0.99, so its
magnitude never increases, and over successive no-input ticks it converges
to zero. -/
theorem C10_damping_amended :
    (∀ (keys : Keys) (r : O3.Rocket), r.alive = true → keys.left = false →
      keys.right = false →
      (O3.update keys r).rotational_velocity =
        r.rotational_velocity * O3.ROTATIONAL_DAMPING ∧
      |(O3.update keys r).rotational_velocity| ≤ |r.rotational_velocity|) ∧
    (∀ r : O3.Rocket, r.alive = true →
      Tendsto (fun n => ((O3.update noKeys)^[n] r).rotational_velocity)
        atTop (nhds 0)) := by
  constructor
  · intro keys r hal hl hr
    have h1 : (O3.update keys r).rotational_velocity =
        r.rotational_velocity * O3.ROTATIONAL_DAMPING := by
      simp [O3.update, hal, hl, hr]
    have hd1 : |O3.ROTATIONAL_DAMPING| ≤ 1 := by
      rw [abs_of_nonneg] <;> norm_num [O3.ROTATIONAL_DAMPING]
    refine ⟨h1, ?_⟩
    rw [h1, abs_mul]
    calc |r.rotational_velocity| * |O3.ROTATIONAL_DAMPING|
        ≤ |r.rotational_velocity| * 1 :=
          mul_le_mul_of_nonneg_left hd1 (abs_nonneg _)
      _ = |r.rotational_velocity| := mul_one _
  · intro r hal
    have hgeo : Tendsto (fun n : ℕ => O3.ROTATIONAL_DAMPING ^ n *
        r.rotational_velocity) atTop (nhds 0) := by
      have h := tendsto_pow_atTop_nhds_zero_of_lt_one
        (by norm_num [O3.ROTATIONAL_DAMPING] : (0 : ℝ) ≤ O3.ROTATIONAL_DAMPING)
        (by norm_num [O3.ROTATIONAL_DAMPING] : O3.ROTATIONAL_DAMPING < 1)
      simpa using h.mul_const r.rotational_velocity
    exact hgeo.congr fun n => ((O3.update_iterate_rv r hal n).2).symm

/-- C10 witness: the amended statement applied to a live rocket with
angular velocity 1 and no keys held. -/
theorem C10_witness :
    ((O3.update noKeys ⟨0, 0, 0, 0, 0, 1, true, false⟩).rotational_velocity =
      (1 : ℝ) * O3.ROTATIONAL_DAMPING ∧
     |(O3.update noKeys ⟨0, 0, 0, 0, 0, 1, true, false⟩).rotational_velocity| ≤
      |(1 : ℝ)|) ∧
    Tendsto (fun n => ((O3.update noKeys)^[n]
      (⟨0, 0, 0, 0, 0, 1, true, false⟩ : O3.Rocket)).rotational_velocity)
      atTop (nhds 0) :=
  ⟨C10_damping_amended.1 noKeys _ rfl rfl rfl, C10_damping_amended.2 _ rfl⟩

end
